import Mathlib

/-!
Shallow embedding of the Heart Rate Monitor API (FastAPI/SQLAlchemy service):
`models.py` (entities), `schemas.py` (request validation), `utils.py`
(password hashing and JWT handling), `main.py` (route handlers).

The database is modelled as an in-memory list of rows; SQLAlchemy's
uniqueness machinery (primary key on `heart_rate_records.id`, unique
indexes on `users.email` / `users.username`) is modelled by explicit
duplicate checks at commit time, matching the `IntegrityError` branches
of the handlers.
-/

namespace HeartRateMonitor

/-! ## Python-level primitives -/

/-- A Python `datetime`: a naive clock reading `base` (seconds) together
with an optional `tzinfo` given as a fixed UTC offset in seconds
(`none` = timezone-naive, `some off` = aware with offset `off`). -/
structure PyDatetime where
  base : Int
  tzinfo : Option Int
deriving DecidableEq, Repr

/-- The UTC instant a `datetime` denotes, reading a naive value as UTC
(the service's documented convention). An aware local reading `base` at
offset `off` denotes the instant `base - off`. -/
def pyInstant (dt : PyDatetime) : Int :=
  match dt.tzinfo with
  | none => dt.base
  | some off => dt.base - off

/-- Python's `a or b` on an `Optional[str]`: `None` and the empty string
are falsy, any other string is returned as is. Models the expressions
`entry.id or str(uuid.uuid4())` and `body.username or body.email.split("@")[0]`. -/
def pyOrStr (a : Option String) (b : String) : String :=
  match a with
  | none => b
  | some s => if s = "" then b else s

/-- Python's `email.split("@")[0]`: the text before the first `@`
(the whole string when no `@` occurs). -/
def emailLocalPart (s : String) : String :=
  String.mk (s.toList.takeWhile (fun c => c != '@'))

/-- Decimal digit to its character, as in Python's `str` of an `int`. -/
def digitToChar : Nat → Char
  | 0 => '0' | 1 => '1' | 2 => '2' | 3 => '3' | 4 => '4'
  | 5 => '5' | 6 => '6' | 7 => '7' | 8 => '8' | 9 => '9'
  | _ => '?'

/-- Character back to a decimal digit, `none` for a non-digit. -/
def charToDigit (c : Char) : Option Nat :=
  if 48 ≤ c.toNat ∧ c.toNat ≤ 57 then some (c.toNat - 48) else none

/-- Most-significant-first decimal digits of a natural number. -/
def natToDecDigits (n : Nat) : List Nat :=
  if _h : n < 10 then [n] else natToDecDigits (n / 10) ++ [n % 10]
termination_by n
decreasing_by exact Nat.div_lt_self (by omega) (by omega)

/-- Python `str(n)` for an `int` `n`: decimal digits, `-`-signed when negative. -/
def pyStrInt (n : Int) : String :=
  if n < 0 then String.mk ('-' :: (natToDecDigits n.natAbs).map digitToChar)
  else String.mk ((natToDecDigits n.natAbs).map digitToChar)

/-- Accumulator pass of Python `int(s)`: consume decimal digits,
failing on any non-digit character. -/
def parseDigitsAux : List Char → Nat → Option Nat
  | [], acc => some acc
  | c :: cs, acc =>
    match charToDigit c with
    | none => none
    | some d => parseDigitsAux cs (acc * 10 + d)

/-- Python `int(s)` on a string, returning `none` where Python raises
`ValueError`: an optional sign followed by at least one decimal digit. -/
def pyIntStr (s : String) : Option Int :=
  match s.toList with
  | [] => none
  | c :: cs =>
    if c = '-' then
      if cs = [] then none else (parseDigitsAux cs 0).map (fun m => -(m : Int))
    else if c = '+' then
      if cs = [] then none else (parseDigitsAux cs 0).map (fun m => (m : Int))
    else (parseDigitsAux (c :: cs) 0).map (fun m => (m : Int))

/-! ## schemas.py — request validation -/

/-- Character class of `_USERNAME_RE = ^[a-zA-Z0-9_-]{3,30}$` (schemas.py). -/
def usernameCharOk (c : Char) : Bool :=
  c.isAlpha || c.isDigit || c == '_' || c == '-'

/-- `_USERNAME_RE.match(v)`: 3 to 30 characters, every one a letter,
digit, hyphen or underscore. -/
def usernameRe (s : String) : Bool :=
  3 ≤ s.length && s.length ≤ 30 && s.toList.all usernameCharOk

/-- `_validate_password` (schemas.py): 8 to 72 characters, with at least
one ASCII uppercase letter, one lowercase letter and one digit. -/
def validate_password (v : String) : Bool :=
  8 ≤ v.length && v.length ≤ 72 &&
    v.toList.any Char.isUpper && v.toList.any Char.isLower &&
    v.toList.any Char.isDigit

/-- Character allowed in the local part of an email address. -/
def emailLocalCharOk (c : Char) : Bool :=
  c.isAlphanum || c == '.' || c == '_' || c == '-' || c == '+'

/-- Character allowed in the domain part of an email address. -/
def emailDomainCharOk (c : Char) : Bool :=
  c.isAlphanum || c == '.' || c == '-'

/-- Modelled from the spec: pydantic's `EmailStr` validator is
third-party library code, not part of this repository; the spec only
requires "a syntactically valid email address". Simplified model: one
`@` separating a nonempty local part (letters, digits, `.`, `_`, `-`,
`+`, no leading/trailing dot) from a domain that contains a dot. -/
def isValidEmail (s : String) : Bool :=
  let cs := s.toList
  let lp := cs.takeWhile (fun c => c != '@')
  match cs.dropWhile (fun c => c != '@') with
  | '@' :: dom =>
    !dom.contains '@' &&
      !lp.isEmpty && lp.all emailLocalCharOk &&
      lp.head? != some '.' && lp.getLast? != some '.' &&
      !dom.isEmpty && dom.all emailDomainCharOk && dom.contains '.'
  | _ => false

/-- `UserRegister` (schemas.py): email, password, optional username. -/
structure UserRegister where
  email : String
  password : String
  username : Option String
deriving DecidableEq, Repr

/-- Pydantic validation of a `UserRegister` body: valid email, password
strength, and — only when a username is supplied — the username pattern. -/
def validUserRegister (b : UserRegister) : Bool :=
  isValidEmail b.email && validate_password b.password &&
    (match b.username with
     | none => true
     | some u => usernameRe u)

/-- A JSON body field, distinguishing an absent key, an explicit
`null`, and a present value. -/
inductive JsonField (α : Type) where
  | absent : JsonField α
  | null : JsonField α
  | val : α → JsonField α
deriving DecidableEq, Repr

/-- Pydantic maps both an absent optional field and an explicit `null`
to Python `None`. -/
def JsonField.toOption {α : Type} : JsonField α → Option α
  | .absent => none
  | .null => none
  | .val a => some a

/-- `UserProfileUpdate` (schemas.py) after pydantic parsing: every field
independently optional. -/
structure UserProfileUpdate where
  username : Option String
  email : Option String
  age : Option Int
  health_issues : Option String
deriving DecidableEq, Repr

/-- The raw JSON body of a `PUT /me` request, before pydantic parsing. -/
structure UserProfileUpdateJson where
  username : JsonField String
  email : JsonField String
  age : JsonField Int
  health_issues : JsonField String
deriving DecidableEq, Repr

/-- Field constraints of `UserProfileUpdate`: pattern and length for a
present username, email syntax, `age` 1–150, `health_issues` ≤ 500
characters; `None` (absent or `null`) always passes. -/
def validProfileUpdateFields (b : UserProfileUpdate) : Bool :=
  (match b.username with | none => true | some u => usernameRe u) &&
  (match b.email with | none => true | some e => isValidEmail e) &&
  (match b.age with | none => true | some a => 1 ≤ a && a ≤ 150) &&
  (match b.health_issues with | none => true | some h => h.length ≤ 500)

/-- Pydantic parsing of a `PUT /me` body: absent and `null` fields both
become `None`; present values are validated. -/
def parseProfileUpdate (r : UserProfileUpdateJson) : Option UserProfileUpdate :=
  let b : UserProfileUpdate :=
    { username := r.username.toOption
      email := r.email.toOption
      age := r.age.toOption
      health_issues := r.health_issues.toOption }
  if validProfileUpdateFields b then some b else none

/-- `HeartRateCreate` (schemas.py): optional client id, bpm, timestamp.
The `id` field carries no format validation. -/
structure HeartRateCreate where
  id : Option String
  bpm : Int
  recorded_at : PyDatetime
deriving DecidableEq, Repr

/-- Pydantic validation of a `HeartRateCreate` body: only `bpm` is
constrained (30–250 inclusive); `id` is accepted as-is. -/
def validHeartRateCreate (e : HeartRateCreate) : Bool :=
  30 ≤ e.bpm && e.bpm ≤ 250

/-! ## models.py — entities -/

/-- The `users` table (models.py): integer primary key, unique username
and email, bcrypt hash, optional age and health notes. -/
structure User where
  id : Nat
  username : String
  email : String
  hashed_password : String
  age : Option Int
  health_issues : Option String
deriving DecidableEq, Repr

/-- The `heart_rate_records` table (models.py): string primary key,
owning user, bpm, measurement timestamp and server insertion time. -/
structure HeartRateRecord where
  id : String
  user_id : Nat
  bpm : Int
  recorded_at : PyDatetime
  created_at : Int
deriving DecidableEq, Repr

/-- Primary-key invariant of `heart_rate_records`: no two rows share an id. -/
def idsUnique (db : List HeartRateRecord) : Prop :=
  db.Pairwise (fun a b => a.id ≠ b.id)

/-! ## utils.py — auth utilities -/

/-- The required environment configuration of utils.py: `SECRET_KEY`,
`ALGORITHM`, `ACCESS_TOKEN_EXPIRE_MINUTES` (validated positive at startup). -/
structure AuthConfig where
  secret_key : String
  algorithm : String
  expire_minutes : Int
deriving DecidableEq, Repr

/-- A JWT payload as used by utils.py: an optional `sub` claim (a JSON
string) and an `exp` claim (unix seconds). -/
structure JwtPayload where
  sub : Option String
  exp : Int
deriving DecidableEq, Repr

/-- A bearer token as seen by `jose.jwt`: either a well-formed token
signed with some key and algorithm, or an unparseable string. -/
inductive Jwt where
  | signed : JwtPayload → String → String → Jwt
  | garbage : String → Jwt
deriving DecidableEq, Repr

/-- Model of `jose.jwt.decode(token, key, algorithms=[alg])` at time
`now`: fails (raises `JWTError`) on a malformed token, a signature made
with a different key or algorithm, or an expiry in the past. -/
def jwt_decode (tok : Jwt) (key alg : String) (now : Int) : Option JwtPayload :=
  match tok with
  | .garbage _ => none
  | .signed p k a =>
    if k = key ∧ a = alg then (if p.exp < now then none else some p) else none

/-- `create_access_token` (utils.py 42–48): the `sub` value — an integer
user id at every call site — is coerced to its string form, and `exp`
is set to now plus the configured lifetime in minutes. -/
def create_access_token (cfg : AuthConfig) (now : Int) (sub : Option Int) : Jwt :=
  Jwt.signed { sub := sub.map pyStrInt, exp := now + cfg.expire_minutes * 60 }
    cfg.secret_key cfg.algorithm

/-- `verify_access_token` (utils.py 51–60): decode, read `sub`, convert
with `int(...)`; any `JWTError` or `ValueError` yields `None`. -/
def verify_access_token (cfg : AuthConfig) (now : Int) (tok : Jwt) : Option Int :=
  match jwt_decode tok cfg.secret_key cfg.algorithm now with
  | none => none
  | some payload =>
    match payload.sub with
    | none => none
    | some s => pyIntStr s

/-- Model of bcrypt `hash_password` (utils.py): the hash value itself is
irrelevant to every claim; only that it is stored in place of the
plaintext matters. -/
def hash_password (password : String) : String :=
  "bcrypt$" ++ password

/-! ## main.py — route handlers -/

/-- The outcome of a route handler: a success status with a body, or an
`HTTPException` with a status code and a `detail` string. -/
inductive ApiResult (α : Type) where
  | ok : Nat → α → ApiResult α
  | err : Nat → String → ApiResult α
deriving DecidableEq, Repr

/-- The response body of `POST /register` (main.py 109–114). -/
structure RegisterResponse where
  message : String
  username : String
  access_token : Jwt
  token_type : String
deriving DecidableEq, Repr

/-- `register` (main.py 90–114): derive the username via Python `or`
from the email local part, insert, and translate a uniqueness violation
on email or username into 409. `newId` is the id the database assigns
to the fresh row; `now` feeds token creation. -/
def register (cfg : AuthConfig) (now : Int) (db : List User)
    (body : UserRegister) (newId : Nat) :
    ApiResult RegisterResponse × List User :=
  let username := pyOrStr body.username (emailLocalPart body.email)
  let user : User :=
    { id := newId, username := username, email := body.email
      hashed_password := hash_password body.password
      age := none, health_issues := none }
  if db.any (fun u => u.email == body.email || u.username == username) then
    (.err 409 "Email or username already registered", db)
  else
    (.ok 201
      { message := "User registered", username := user.username
        access_token := create_access_token cfg now (some (user.id : Int))
        token_type := "bearer" },
      db ++ [user])

/-- The field merge of `update_profile` (main.py 164–171): each field is
overwritten exactly when the body carries a non-`None` value for it. -/
def applyProfileUpdate (u : User) (b : UserProfileUpdate) : User :=
  { u with
    username := match b.username with | some x => x | none => u.username
    email := match b.email with | some x => x | none => u.email
    age := match b.age with | some x => x | none => u.age
    health_issues :=
      match b.health_issues with | some x => x | none => u.health_issues }

/-- Replace the first user with the given id (the ORM updates the one
loaded entity in place; ids are a primary key). -/
def replaceUser : List User → Nat → User → List User
  | [], _, _ => []
  | w :: ws, uid, u' =>
    if w.id == uid then u' :: ws else w :: replaceUser ws uid u'

/-- `update_profile` (main.py 153–181): look the caller up by id,
overwrite the supplied fields, commit; a uniqueness violation on email
or username against another row rolls back and yields 400. -/
def update_profile (db : List User) (user_id : Nat) (body : UserProfileUpdate) :
    ApiResult User × List User :=
  match db.find? (fun w => w.id == user_id) with
  | none => (.err 404 "User not found", db)
  | some u =>
    let u' := applyProfileUpdate u body
    if db.any (fun w => w.id != user_id &&
        (w.email == u'.email || w.username == u'.username)) then
      (.err 400 "Email or username already taken", db)
    else
      (.ok 200 u', replaceUser db user_id u')

/-- Timestamp normalization of `create_heart_rate` (main.py 204–209):
attach UTC to a naive value (`replace(tzinfo=timezone.utc)`), convert an
aware value to UTC (`astimezone(timezone.utc)`). -/
def normalizeRecordedAt (dt : PyDatetime) : PyDatetime :=
  match dt.tzinfo with
  | none => { dt with tzinfo := some 0 }
  | some off => { base := dt.base - off, tzinfo := some 0 }

/-- The row built by `create_heart_rate` (main.py 211–216): Python `or`
on the client id (so `None` and `""` both fall back to the fresh server
UUID `freshUuid`), the authenticated caller as owner, and the
normalized timestamp; `created_at` defaults to the current time `now`. -/
def newRecord (entry : HeartRateCreate) (user_id : Nat)
    (freshUuid : String) (now : Int) : HeartRateRecord :=
  { id := pyOrStr entry.id freshUuid
    user_id := user_id
    bpm := entry.bpm
    recorded_at := normalizeRecordedAt entry.recorded_at
    created_at := now }

/-- `create_heart_rate` (main.py 199–234): insert and commit; a
primary-key violation (a row with the same id already present) rolls
back, then a row matching both that id and the caller is returned as a
successful retry, and otherwise the handler raises 409 "Duplicate
entry". -/
def create_heart_rate (db : List HeartRateRecord) (user_id : Nat)
    (entry : HeartRateCreate) (freshUuid : String) (now : Int) :
    ApiResult HeartRateRecord × List HeartRateRecord :=
  let record := newRecord entry user_id freshUuid now
  if db.any (fun r => r.id == record.id) then
    match db.find? (fun r => r.id == record.id && r.user_id == user_id) with
    | some existing => (.ok 201 existing, db)
    | none => (.err 409 "Duplicate entry", db)
  else
    (.ok 201 record, db ++ [record])

/-- Descending order on `recorded_at` as compared by the store
(`ORDER BY recorded_at DESC` over instants). -/
def recordedDesc (a b : HeartRateRecord) : Bool :=
  pyInstant b.recorded_at ≤ pyInstant a.recorded_at

/-- `list_heart_rate` (main.py 237–252): the caller's rows, ordered by
`recorded_at` descending, then offset/limit pagination. -/
def list_heart_rate (db : List HeartRateRecord) (user_id : Nat)
    (limit offset : Nat) : List HeartRateRecord :=
  ((((db.filter (fun r => r.user_id == user_id)).mergeSort
      recordedDesc).drop offset).take limit)

/-- `delete_heart_rate` (main.py 255–271): a single lookup filtered on
both the id and the caller; a miss — whether the row is absent or owned
by someone else — raises 404 "Record not found", a hit deletes the row
and yields 204. -/
def delete_heart_rate (db : List HeartRateRecord) (user_id : Nat)
    (entry_id : String) : ApiResult Unit × List HeartRateRecord :=
  match db.find? (fun r => r.id == entry_id && r.user_id == user_id) with
  | none => (.err 404 "Record not found", db)
  | some record => (.ok 204 (), db.erase record)

/-! ## Supporting lemmas -/

theorem natToDecDigits_ne_nil (n : Nat) : natToDecDigits n ≠ [] := by
  rw [natToDecDigits]
  split <;> simp

theorem natToDecDigits_lt (n : Nat) : ∀ d ∈ natToDecDigits n, d < 10 := by
  induction n using Nat.strong_induction_on with
  | _ n ih =>
    rw [natToDecDigits]
    split
    · next h => intro d hd; simp only [List.mem_singleton] at hd; omega
    · next h =>
      intro d hd
      rw [List.mem_append] at hd
      rcases hd with hd | hd
      · exact ih (n / 10) (Nat.div_lt_self (by omega) (by omega)) d hd
      · simp only [List.mem_singleton] at hd; omega

theorem charToDigit_digitToChar (d : Nat) (h : d < 10) :
    charToDigit (digitToChar d) = some d := by
  interval_cases d <;> decide

theorem digitToChar_ne_dash (d : Nat) (h : d < 10) : digitToChar d ≠ '-' := by
  interval_cases d <;> decide

theorem digitToChar_ne_plus (d : Nat) (h : d < 10) : digitToChar d ≠ '+' := by
  interval_cases d <;> decide

theorem parseDigitsAux_append (xs ys : List Char) (acc : Nat) :
    parseDigitsAux (xs ++ ys) acc =
      (parseDigitsAux xs acc).bind (fun m => parseDigitsAux ys m) := by
  induction xs generalizing acc with
  | nil => rfl
  | cons c cs ih =>
    cases h : charToDigit c with
    | none => simp [parseDigitsAux, h]
    | some d => simp [parseDigitsAux, h, ih]

theorem parseDigitsAux_decDigits (n : Nat) :
    ∀ acc, parseDigitsAux ((natToDecDigits n).map digitToChar) acc =
      some (acc * 10 ^ (natToDecDigits n).length + n) := by
  induction n using Nat.strong_induction_on with
  | _ n ih =>
    intro acc
    rw [natToDecDigits]
    split
    · next h =>
      simp [parseDigitsAux, charToDigit_digitToChar n h]
    · next h =>
      rw [List.map_append, parseDigitsAux_append,
        ih (n / 10) (Nat.div_lt_self (by omega) (by omega)) acc]
      have hm : n % 10 < 10 := Nat.mod_lt _ (by omega)
      simp only [Option.some_bind, List.map_cons, List.map_nil, parseDigitsAux,
        charToDigit_digitToChar (n % 10) hm, List.length_append,
        List.length_cons, List.length_nil, Nat.zero_add]
      have key : ∀ A m : Nat, (A + m / 10) * 10 + m % 10 = A * 10 + m := by
        intro A m; omega
      congr 1
      rw [key, pow_succ, ← mul_assoc]

theorem pyIntStr_pyStrInt (n : Int) : pyIntStr (pyStrInt n) = some n := by
  have hparse := parseDigitsAux_decDigits n.natAbs 0
  simp only [Nat.zero_mul, Nat.zero_add] at hparse
  by_cases hn : n < 0
  · rw [pyStrInt, if_pos hn]
    have hne : (natToDecDigits n.natAbs).map digitToChar ≠ [] := by
      simp [natToDecDigits_ne_nil]
    simp [pyIntStr, String.toList, hne, hparse,
      Int.ofNat_natAbs_of_nonpos hn.le]
  · rw [pyStrInt, if_neg hn]
    cases hd : natToDecDigits n.natAbs with
    | nil => exact absurd hd (natToDecDigits_ne_nil _)
    | cons d ds =>
      have hdlt : d < 10 := natToDecDigits_lt n.natAbs d (by rw [hd]; simp)
      rw [hd] at hparse
      simp only [List.map_cons] at hparse
      simp [pyIntStr, String.toList, digitToChar_ne_dash d hdlt,
        digitToChar_ne_plus d hdlt, hparse, Int.natAbs_of_nonneg (not_lt.mp hn)]

theorem find?_eq_some_of_mem_unique {α : Type} (p : α → Bool) (r : α) :
    ∀ l : List α, r ∈ l → p r = true → (∀ t ∈ l, p t = true → t = r) →
      l.find? p = some r := by
  intro l
  induction l with
  | nil => intro h; exact absurd h (List.not_mem_nil r)
  | cons a l ih =>
    intro hmem hp huniq
    by_cases ha : p a = true
    · rw [List.find?_cons_of_pos _ ha]
      rw [huniq a (List.mem_cons_self a l) ha]
    · rw [List.find?_cons_of_neg _ (by simp [ha])]
      rcases List.mem_cons.mp hmem with rfl | hmem'
      · exact absurd hp ha
      · exact ih hmem' hp (fun t ht hpt => huniq t (List.mem_cons_of_mem a ht) hpt)

theorem eq_of_mem_idsUnique {db : List HeartRateRecord} (hu : idsUnique db)
    {r t : HeartRateRecord} (hr : r ∈ db) (ht : t ∈ db) (hid : t.id = r.id) :
    t = r := by
  by_contra hne
  have hu' : db.Pairwise (fun a b => a.id ≠ b.id) := hu
  have hsym : Symmetric (fun a b : HeartRateRecord => a.id ≠ b.id) := by
    intro a b h h2
    exact h h2.symm
  exact List.Pairwise.forall hsym hu' ht hr hne hid

/-! ## Claim theorems -/

/-- C6: for every POST /heart-rate request, the stored `recorded_at` is
the UTC normalization of the submitted timestamp — a timezone-naive
value is kept unchanged with UTC attached, an aware value is converted
to the equivalent UTC instant, and any two representations of the same
instant normalize to the same stored value; the row built by
`create_heart_rate` carries exactly this normalized timestamp. -/
theorem create_normalizes_recorded_at_to_utc (dt : PyDatetime) :
    normalizeRecordedAt dt = { base := pyInstant dt, tzinfo := some 0 } ∧
    (dt.tzinfo = none →
      normalizeRecordedAt dt = { base := dt.base, tzinfo := some 0 }) ∧
    (∀ dt' : PyDatetime, pyInstant dt = pyInstant dt' →
      normalizeRecordedAt dt = normalizeRecordedAt dt') ∧
    (∀ (entry : HeartRateCreate) (uid : Nat) (uuid : String) (now : Int),
      entry.recorded_at = dt →
      (newRecord entry uid uuid now).recorded_at = normalizeRecordedAt dt) := by
  have hnorm : ∀ d : PyDatetime,
      normalizeRecordedAt d = { base := pyInstant d, tzinfo := some 0 } := by
    intro d
    obtain ⟨b, tz⟩ := d
    cases tz <;> simp [normalizeRecordedAt, pyInstant]
  refine ⟨hnorm dt, ?_, ?_, ?_⟩
  · intro h
    obtain ⟨b, tz⟩ := dt
    simp only at h
    subst h
    rfl
  · intro dt' hinst
    rw [hnorm dt, hnorm dt', hinst]
  · intro entry uid uuid now h
    simp [newRecord, h]

theorem create_normalizes_recorded_at_to_utc_witness :
    normalizeRecordedAt ⟨7200, some 3600⟩ = normalizeRecordedAt ⟨3600, none⟩ :=
  (create_normalizes_recorded_at_to_utc ⟨7200, some 3600⟩).2.2.1
    ⟨3600, none⟩ (by decide)

/-- C5 (amended): a nonempty client-supplied id string is used exactly
as-is in the created record, with no format validation; the server UUID
is used when the id field is omitted, null, or the empty string (Python
`entry.id or str(uuid.uuid4())` treats `""` as falsy). -/
theorem create_uses_nonempty_client_id_as_is
    (entry : HeartRateCreate) (uid : Nat) (uuid : String) (now : Int) :
    (∀ x : String, entry.id = some x → x ≠ "" →
      (newRecord entry uid uuid now).id = x) ∧
    (entry.id = none → (newRecord entry uid uuid now).id = uuid) ∧
    (entry.id = some "" → (newRecord entry uid uuid now).id = uuid) ∧
    (30 ≤ entry.bpm → entry.bpm ≤ 250 → validHeartRateCreate entry = true) := by
  refine ⟨?_, ?_, ?_, ?_⟩
  · intro x hx hne
    simp [newRecord, pyOrStr, hx, hne]
  · intro hx
    simp [newRecord, pyOrStr, hx]
  · intro hx
    simp [newRecord, pyOrStr, hx]
  · intro h1 h2
    simp [validHeartRateCreate]
    omega

theorem create_uses_nonempty_client_id_as_is_witness :
    (newRecord { id := some "not-a-uuid!!", bpm := 60, recorded_at := ⟨0, none⟩ }
      1 "3fa85f64-5717-4562-b3fc-2c963f66afa6" 0).id = "not-a-uuid!!" :=
  (create_uses_nonempty_client_id_as_is
    { id := some "not-a-uuid!!", bpm := 60, recorded_at := ⟨0, none⟩ }
    1 "3fa85f64-5717-4562-b3fc-2c963f66afa6" 0).1 "not-a-uuid!!" rfl (by decide)

/-- C5 counterexample: when the client supplies the id `""`, the created
record's id is the server-generated UUID, not the supplied string — so
"the created record's id equals exactly the supplied string" fails. -/
theorem create_heart_rate_empty_id_counterexample :
    create_heart_rate [] 1 { id := some "", bpm := 60, recorded_at := ⟨0, none⟩ }
        "3fa85f64-5717-4562-b3fc-2c963f66afa6" 0 =
      (ApiResult.ok 201
        { id := "3fa85f64-5717-4562-b3fc-2c963f66afa6", user_id := 1, bpm := 60,
          recorded_at := ⟨0, some 0⟩, created_at := 0 },
        [{ id := "3fa85f64-5717-4562-b3fc-2c963f66afa6", user_id := 1, bpm := 60,
           recorded_at := ⟨0, some 0⟩, created_at := 0 }]) ∧
    ("3fa85f64-5717-4562-b3fc-2c963f66afa6" : String) ≠ "" := by
  exact ⟨rfl, by decide⟩

/-- C9: on a successful PUT /me, each of username, email, age and
health_issues is overwritten exactly when the body carries it, absent
fields keep their prior stored values, the user's id and
hashed_password are never changed, and the store is updated with
exactly that merged user. -/
theorem update_profile_frame (db : List User) (uid : Nat)
    (b : UserProfileUpdate) (u : User)
    (hfind : db.find? (fun w => w.id == uid) = some u)
    (hnoconf : db.any (fun w => w.id != uid &&
        (w.email == (applyProfileUpdate u b).email ||
         w.username == (applyProfileUpdate u b).username)) = false) :
    update_profile db uid b =
      (.ok 200 (applyProfileUpdate u b),
       replaceUser db uid (applyProfileUpdate u b)) ∧
    (applyProfileUpdate u b).id = u.id ∧
    (applyProfileUpdate u b).hashed_password = u.hashed_password ∧
    (∀ x, b.username = some x → (applyProfileUpdate u b).username = x) ∧
    (b.username = none → (applyProfileUpdate u b).username = u.username) ∧
    (∀ x, b.email = some x → (applyProfileUpdate u b).email = x) ∧
    (b.email = none → (applyProfileUpdate u b).email = u.email) ∧
    (∀ x, b.age = some x → (applyProfileUpdate u b).age = some x) ∧
    (b.age = none → (applyProfileUpdate u b).age = u.age) ∧
    (∀ x, b.health_issues = some x →
      (applyProfileUpdate u b).health_issues = some x) ∧
    (b.health_issues = none →
      (applyProfileUpdate u b).health_issues = u.health_issues) := by
  refine ⟨?_, rfl, rfl, ?_, ?_, ?_, ?_, ?_, ?_, ?_, ?_⟩
  · rw [update_profile, hfind]
    simp only [hnoconf, Bool.false_eq_true, if_false]
  · intro x hx; simp [applyProfileUpdate, hx]
  · intro hx; simp [applyProfileUpdate, hx]
  · intro x hx; simp [applyProfileUpdate, hx]
  · intro hx; simp [applyProfileUpdate, hx]
  · intro x hx; simp [applyProfileUpdate, hx]
  · intro hx; simp [applyProfileUpdate, hx]
  · intro x hx; simp [applyProfileUpdate, hx]
  · intro hx; simp [applyProfileUpdate, hx]

theorem update_profile_frame_witness :
    update_profile
      [{ id := 1, username := "alice", email := "alice@example.com",
         hashed_password := "h", age := none, health_issues := none }] 1
      { username := none, email := none, age := some 33, health_issues := none } =
      (.ok 200 (applyProfileUpdate
        { id := 1, username := "alice", email := "alice@example.com",
          hashed_password := "h", age := none, health_issues := none }
        { username := none, email := none, age := some 33, health_issues := none }),
       replaceUser
        [{ id := 1, username := "alice", email := "alice@example.com",
           hashed_password := "h", age := none, health_issues := none }] 1
        (applyProfileUpdate
          { id := 1, username := "alice", email := "alice@example.com",
            hashed_password := "h", age := none, health_issues := none }
          { username := none, email := none, age := some 33, health_issues := none })) :=
  (update_profile_frame _ 1 _ _ (by decide) (by decide)).1

/-- C10: in PUT /me, a field sent as an explicit `null` parses exactly
like an absent field (shown here for `age` and `health_issues`, the two
clearable-looking fields), so the stored value is left unchanged either
way; and a set `age` or `health_issues` can never return to the unset
state through a profile update. -/
theorem put_me_null_equals_absent (un em : JsonField String)
    (u : User) (b : UserProfileUpdate) :
    (∀ hi' : JsonField String,
      parseProfileUpdate
          { username := un, email := em, age := .null, health_issues := hi' } =
        parseProfileUpdate
          { username := un, email := em, age := .absent, health_issues := hi' }) ∧
    (∀ ag : JsonField Int,
      parseProfileUpdate
          { username := un, email := em, age := ag, health_issues := .null } =
        parseProfileUpdate
          { username := un, email := em, age := ag, health_issues := .absent }) ∧
    (u.age.isSome = true → (applyProfileUpdate u b).age.isSome = true) ∧
    (u.health_issues.isSome = true →
      (applyProfileUpdate u b).health_issues.isSome = true) := by
  refine ⟨fun hi' => rfl, fun ag => rfl, ?_, ?_⟩
  · intro h
    cases hb : b.age <;> simp [applyProfileUpdate, hb, h]
  · intro h
    cases hb : b.health_issues <;> simp [applyProfileUpdate, hb, h]

theorem put_me_null_equals_absent_witness :
    (applyProfileUpdate
      { id := 1, username := "alice", email := "alice@example.com",
        hashed_password := "h", age := some 30, health_issues := none }
      { username := none, email := none, age := none,
        health_issues := none }).age.isSome = true :=
  (put_me_null_equals_absent .absent .absent
    { id := 1, username := "alice", email := "alice@example.com",
      hashed_password := "h", age := some 30, health_issues := none }
    { username := none, email := none, age := none,
      health_issues := none }).2.2.1 (by decide)

/-- C8: GET /heart-rate returns only the caller's records: there is a
permutation of exactly the caller's rows that is sorted by
`recorded_at` descending, of which the response is precisely the window
that skips the first `offset` entries and keeps at most `limit`. -/
theorem list_heart_rate_spec (db : List HeartRateRecord) (uid : Nat)
    (limit offset : Nat) :
    ∃ allRecs : List HeartRateRecord,
      allRecs.Perm (db.filter (fun r => r.user_id == uid)) ∧
      allRecs.Pairwise
        (fun a b => pyInstant b.recorded_at ≤ pyInstant a.recorded_at) ∧
      list_heart_rate db uid limit offset = (allRecs.drop offset).take limit ∧
      (∀ r ∈ list_heart_rate db uid limit offset, r.user_id = uid) ∧
      (list_heart_rate db uid limit offset).length ≤ limit := by
  refine ⟨(db.filter (fun r => r.user_id == uid)).mergeSort recordedDesc,
    ?_, ?_, ?_, ?_, ?_⟩
  · exact List.mergeSort_perm _ _
  · have htrans : ∀ a b c : HeartRateRecord,
        recordedDesc a b → recordedDesc b c → recordedDesc a c := by
      intro a b c hab hbc
      simp only [recordedDesc, decide_eq_true_eq] at hab hbc ⊢
      omega
    have htotal : ∀ a b : HeartRateRecord,
        recordedDesc a b || recordedDesc b a := by
      intro a b
      simp only [recordedDesc, Bool.or_eq_true, decide_eq_true_eq]
      omega
    have hs := List.sorted_mergeSort htrans htotal
      (db.filter (fun r => r.user_id == uid))
    exact hs.imp (fun h => by simpa [recordedDesc] using h)
  · rfl
  · intro r hr
    have h1 : r ∈ (db.filter (fun t => t.user_id == uid)).mergeSort recordedDesc :=
      List.drop_subset _ _ (List.take_subset _ _ hr)
    have h2 : r ∈ db.filter (fun t => t.user_id == uid) :=
      (List.mergeSort_perm _ _).mem_iff.mp h1
    simpa using (List.mem_filter.mp h2).2
  · exact List.length_take_le limit
      (((db.filter (fun r => r.user_id == uid)).mergeSort recordedDesc).drop offset)

/-- C1: when the authenticated caller already owns the record with the
client-supplied id, a repeated POST /heart-rate with that id (any bpm
or timestamp) returns 201 with the record content stored by the first
insert, creates no second row, and does not error. -/
theorem create_retry_same_user_idempotent (db : List HeartRateRecord)
    (u : Nat) (x : String) (r : HeartRateRecord) (entry : HeartRateCreate)
    (uuid : String) (now : Int)
    (hu : idsUnique db) (hmem : r ∈ db) (hid : r.id = x) (howner : r.user_id = u)
    (hentry : entry.id = some x) (hx : x ≠ "") :
    create_heart_rate db u entry uuid now = (.ok 201 r, db) := by
  have hrid : (newRecord entry u uuid now).id = x := by
    simp [newRecord, pyOrStr, hentry, hx]
  have hany : db.any (fun t => t.id == (newRecord entry u uuid now).id) = true := by
    rw [List.any_eq_true]
    exact ⟨r, hmem, by simp [hrid, hid]⟩
  have hfind : db.find?
      (fun t => t.id == (newRecord entry u uuid now).id && t.user_id == u) = some r := by
    apply find?_eq_some_of_mem_unique _ r db hmem
    · simp [hrid, hid, howner]
    · intro t ht hpt
      simp only [hrid, Bool.and_eq_true, beq_iff_eq] at hpt
      exact eq_of_mem_idsUnique hu hmem ht (by rw [hpt.1, hid])
  rw [create_heart_rate]
  simp only [hany, if_true, hfind]

theorem create_retry_same_user_idempotent_witness :
    create_heart_rate
      [{ id := "x", user_id := 1, bpm := 77, recorded_at := ⟨5, some 0⟩,
         created_at := 2 }] 1
      { id := some "x", bpm := 90, recorded_at := ⟨9, none⟩ }
      "3fa85f64-5717-4562-b3fc-2c963f66afa6" 3 =
      (.ok 201
        { id := "x", user_id := 1, bpm := 77, recorded_at := ⟨5, some 0⟩,
          created_at := 2 },
       [{ id := "x", user_id := 1, bpm := 77, recorded_at := ⟨5, some 0⟩,
          created_at := 2 }]) :=
  create_retry_same_user_idempotent _ 1 "x" _ _ _ 3
    (by simp [idsUnique]) (by simp) rfl rfl rfl (by decide)

/-- C2: when a record with the supplied id exists but belongs to a
different user, POST /heart-rate fails with 409 "Duplicate entry" and
the store — in particular the other user's record — is unchanged. -/
theorem create_cross_user_conflict (db : List HeartRateRecord)
    (a b : Nat) (x : String) (r : HeartRateRecord) (entry : HeartRateCreate)
    (uuid : String) (now : Int)
    (hu : idsUnique db) (hmem : r ∈ db) (hid : r.id = x) (howner : r.user_id = a)
    (hab : a ≠ b) (hentry : entry.id = some x) (hx : x ≠ "") :
    create_heart_rate db b entry uuid now = (.err 409 "Duplicate entry", db) := by
  have hrid : (newRecord entry b uuid now).id = x := by
    simp [newRecord, pyOrStr, hentry, hx]
  have hany : db.any (fun t => t.id == (newRecord entry b uuid now).id) = true := by
    rw [List.any_eq_true]
    exact ⟨r, hmem, by simp [hrid, hid]⟩
  have hfind : db.find?
      (fun t => t.id == (newRecord entry b uuid now).id && t.user_id == b) = none := by
    rw [List.find?_eq_none]
    intro t ht hpt
    simp only [hrid, Bool.and_eq_true, beq_iff_eq] at hpt
    have : t = r := eq_of_mem_idsUnique hu hmem ht (by rw [hpt.1, hid])
    rw [this, howner] at hpt
    exact hab hpt.2
  rw [create_heart_rate]
  simp only [hany, if_true, hfind]

theorem create_cross_user_conflict_witness :
    create_heart_rate
      [{ id := "x", user_id := 1, bpm := 77, recorded_at := ⟨5, some 0⟩,
         created_at := 2 }] 2
      { id := some "x", bpm := 90, recorded_at := ⟨9, none⟩ }
      "3fa85f64-5717-4562-b3fc-2c963f66afa6" 3 =
      (.err 409 "Duplicate entry",
       [{ id := "x", user_id := 1, bpm := 77, recorded_at := ⟨5, some 0⟩,
          created_at := 2 }]) :=
  create_cross_user_conflict _ 1 2 "x"
    { id := "x", user_id := 1, bpm := 77, recorded_at := ⟨5, some 0⟩,
      created_at := 2 } _ _ 3
    (by simp [idsUnique]) (by simp) rfl rfl (by decide) rfl (by decide)

/-- C3: DELETE /heart-rate/{entry_id} succeeds with 204 and removes the
record if and only if a record with that id owned by the caller exists;
otherwise — whether no record with that id exists at all or it belongs
to a different user — it returns the same 404 "Record not found" and
leaves the store untouched. -/
theorem delete_heart_rate_owned_iff (db : List HeartRateRecord) (u : Nat)
    (eid : String) (hu : idsUnique db) :
    ((delete_heart_rate db u eid).1 = .ok 204 () ↔
      ∃ r ∈ db, r.id = eid ∧ r.user_id = u) ∧
    (∀ r ∈ db, r.id = eid → r.user_id = u →
      delete_heart_rate db u eid = (.ok 204 (), db.erase r)) ∧
    ((¬ ∃ r ∈ db, r.id = eid ∧ r.user_id = u) →
      delete_heart_rate db u eid = (.err 404 "Record not found", db)) := by
  have hnone : (¬ ∃ r ∈ db, r.id = eid ∧ r.user_id = u) →
      delete_heart_rate db u eid = (.err 404 "Record not found", db) := by
    intro hno
    have hfind : db.find? (fun t => t.id == eid && t.user_id == u) = none := by
      rw [List.find?_eq_none]
      intro t ht hpt
      simp only [Bool.and_eq_true, beq_iff_eq] at hpt
      exact hno ⟨t, ht, hpt.1, hpt.2⟩
    rw [delete_heart_rate, hfind]
  have hsome : ∀ r ∈ db, r.id = eid → r.user_id = u →
      delete_heart_rate db u eid = (.ok 204 (), db.erase r) := by
    intro r hmem hid howner
    have hfind : db.find? (fun t => t.id == eid && t.user_id == u) = some r := by
      apply find?_eq_some_of_mem_unique _ r db hmem
      · simp [hid, howner]
      · intro t ht hpt
        simp only [Bool.and_eq_true, beq_iff_eq] at hpt
        exact eq_of_mem_idsUnique hu hmem ht (by rw [hpt.1, hid])
    rw [delete_heart_rate, hfind]
  refine ⟨⟨?_, ?_⟩, hsome, hnone⟩
  · intro hok
    by_contra hno
    rw [hnone hno] at hok
    exact absurd hok (by simp)
  · rintro ⟨r, hmem, hid, howner⟩
    rw [hsome r hmem hid howner]

theorem delete_heart_rate_owned_iff_witness :
    delete_heart_rate
      [{ id := "x", user_id := 1, bpm := 77, recorded_at := ⟨5, some 0⟩,
         created_at := 2 }] 1 "x" = (.ok 204 (), []) ∧
    delete_heart_rate
      [{ id := "x", user_id := 1, bpm := 77, recorded_at := ⟨5, some 0⟩,
         created_at := 2 }] 2 "x" =
      (.err 404 "Record not found",
       [{ id := "x", user_id := 1, bpm := 77, recorded_at := ⟨5, some 0⟩,
          created_at := 2 }]) := by
  constructor
  · exact ((delete_heart_rate_owned_iff _ 1 "x" (by simp [idsUnique])).2.1
      { id := "x", user_id := 1, bpm := 77, recorded_at := ⟨5, some 0⟩,
        created_at := 2 } (by simp) rfl rfl).trans (by decide)
  · exact (delete_heart_rate_owned_iff _ 2 "x" (by simp [idsUnique])).2.2
      (by decide)

/-- C4 (amended): every client-supplied username stored by registration
matches `^[a-zA-Z0-9_-]{3,30}$` (pydantic validates it), and a
successful registration stores no other username than the supplied one;
but a username derived from the email's local part when the field is
omitted is stored without pattern validation and need not match. -/
theorem register_supplied_username_matches_pattern
    (cfg : AuthConfig) (now : Int) (db : List User) (b : UserRegister)
    (nid : Nat) (u : String)
    (hvalid : validUserRegister b = true) (hsup : b.username = some u) :
    usernameRe u = true ∧
    ∀ w ∈ (register cfg now db b nid).2, w ∈ db ∨ w.username = u := by
  have hre : usernameRe u = true := by
    rw [validUserRegister, hsup] at hvalid
    simp only [Bool.and_eq_true] at hvalid
    exact hvalid.2
  have hne : u ≠ "" := by
    intro h
    rw [h] at hre
    exact absurd hre (by decide)
  have husr : pyOrStr b.username (emailLocalPart b.email) = u := by
    simp [pyOrStr, hsup, hne]
  refine ⟨hre, ?_⟩
  intro w hw
  rw [register] at hw
  split at hw
  · exact Or.inl hw
  · simp only at hw
    rw [List.mem_append] at hw
    rcases hw with hw | hw
    · exact Or.inl hw
    · right
      simp only [List.mem_singleton] at hw
      rw [hw, husr]

theorem register_supplied_username_matches_pattern_witness :
    usernameRe "alice_1" = true ∧
    ∀ w ∈ (register ⟨"k", "HS256", 30⟩ 0 []
        { email := "alice@example.com", password := "Abc12345",
          username := some "alice_1" } 1).2,
      w ∈ ([] : List User) ∨ w.username = "alice_1" :=
  register_supplied_username_matches_pattern ⟨"k", "HS256", 30⟩ 0 []
    { email := "alice@example.com", password := "Abc12345",
      username := some "alice_1" } 1 "alice_1" (by decide) rfl

/-- C4 counterexample: registering with email `john.doe@example.com`
and no username passes validation and stores the derived username
`john.doe`, which does not match `^[a-zA-Z0-9_-]{3,30}$` — so not every
stored username matches the pattern. -/
theorem register_derived_username_violates_pattern :
    validUserRegister
      { email := "john.doe@example.com", password := "Abc12345",
        username := none } = true ∧
    (register ⟨"k", "HS256", 30⟩ 0 []
      { email := "john.doe@example.com", password := "Abc12345",
        username := none } 1).2 =
      [{ id := 1, username := "john.doe", email := "john.doe@example.com",
         hashed_password := hash_password "Abc12345",
         age := none, health_issues := none }] ∧
    usernameRe "john.doe" = false := by
  refine ⟨by decide, ?_, by decide⟩
  rfl

/-- C7: a token issued with `sub = n` verifies back to `n` at any time
up to its expiry; and a malformed token, a token signed with a
different key, an expired token, a token without a `sub` claim, and a
token whose `sub` is not numeric all verify to `none` rather than
raising. -/
theorem token_round_trip_and_failures (cfg : AuthConfig)
    (now nowV : Int) (n : Int) :
    (nowV ≤ now + cfg.expire_minutes * 60 →
      verify_access_token cfg nowV (create_access_token cfg now (some n)) =
        some n) ∧
    (∀ s, verify_access_token cfg nowV (.garbage s) = none) ∧
    (∀ p k a, k ≠ cfg.secret_key →
      verify_access_token cfg nowV (.signed p k a) = none) ∧
    (∀ p k a, p.exp < nowV →
      verify_access_token cfg nowV (.signed p k a) = none) ∧
    (∀ k a e, verify_access_token cfg nowV (.signed ⟨none, e⟩ k a) = none) ∧
    (∀ s k a e, pyIntStr s = none →
      verify_access_token cfg nowV (.signed ⟨some s, e⟩ k a) = none) := by
  refine ⟨?_, fun s => rfl, ?_, ?_, ?_, ?_⟩
  · intro hexp
    have h1 : ¬ (now + cfg.expire_minutes * 60 < nowV) := by omega
    simp [create_access_token, verify_access_token, jwt_decode, h1,
      pyIntStr_pyStrInt n]
  · intro p k a hk
    rw [verify_access_token, jwt_decode, if_neg (by exact fun h => hk h.1)]
  · intro p k a hexp
    by_cases hk : k = cfg.secret_key ∧ a = cfg.algorithm
    · simp [verify_access_token, jwt_decode, hk, hexp]
    · simp [verify_access_token, jwt_decode, hk]
  · intro k a e
    by_cases hk : k = cfg.secret_key ∧ a = cfg.algorithm
    · by_cases he : e < nowV
      · simp [verify_access_token, jwt_decode, hk, he]
      · simp [verify_access_token, jwt_decode, hk, he]
    · simp [verify_access_token, jwt_decode, hk]
  · intro s k a e hs
    by_cases hk : k = cfg.secret_key ∧ a = cfg.algorithm
    · by_cases he : e < nowV
      · simp [verify_access_token, jwt_decode, hk, he]
      · simp [verify_access_token, jwt_decode, hk, he, hs]
    · simp [verify_access_token, jwt_decode, hk]

theorem token_round_trip_and_failures_witness :
    verify_access_token ⟨"k", "HS256", 30⟩ 60
      (create_access_token ⟨"k", "HS256", 30⟩ 0 (some 42)) = some 42 :=
  (token_round_trip_and_failures ⟨"k", "HS256", 30⟩ 0 60 42).1 (by decide)
